import Mathlib

/-!
Verification of the Cheddar robot control core: the drive-mixing pipeline
(`PieBrain/controller_mapping.py`), the serial command bridge
(`cheddar_serial/serial_bridge.py`) and the high-level control command router
(`PieBrain/ChedWeb/backend/motion_driver_bridge.py`), shallowly embedded in
Lean.  Python floats are modelled as rationals (ideal arithmetic); where an
exact IEEE-754 binary64 result matters, the exact dyadic rational value of the
double is used and the faithfulness of each arithmetic step is argued in the
comments.  Stateful Python objects are modelled by explicit state passing, and
Python exceptions by `Except` results.
-/

/-! ## Controller mapping (`PieBrain/controller_mapping.py`)

```python
def apply_deadzone(value: float, deadzone: float) -> float:
    if abs(value) < deadzone:
        return 0.0
    sign = 1.0 if value > 0 else -1.0
    adjusted = (abs(value) - deadzone) / (1.0 - deadzone)
    return max(0.0, min(1.0, adjusted)) * sign

def differential_mix(throttle: float, turn: float) -> Tuple[float, float]:
    left = throttle + turn
    right = throttle - turn
    return (max(-1.0, min(1.0, left)), max(-1.0, min(1.0, right)))
```
-/

/-- `apply_deadzone` from `controller_mapping.py`, over `ℚ`. -/
def apply_deadzone (value deadzone : ℚ) : ℚ :=
  if |value| < deadzone then 0
  else
    let sign : ℚ := if value > 0 then 1 else -1
    let adjusted := (|value| - deadzone) / (1 - deadzone)
    max 0 (min 1 adjusted) * sign

/-- `differential_mix` from `controller_mapping.py`, over `ℚ`. -/
def differential_mix (throttle turn : ℚ) : ℚ × ℚ :=
  let left := throttle + turn
  let right := throttle - turn
  (max (-1) (min 1 left), max (-1) (min 1 right))

/-- The mathematical sign function on `ℚ` (written `sign(v)` in the spec). -/
def qsign (v : ℚ) : ℚ := if 0 < v then 1 else if v < 0 then -1 else 0

/-! Exact IEEE-754 binary64 values of the Python float literals involved in
the `differential_mix(0.8, 0.5)` example.  The Python literal `0.8` denotes
the double `3602879701896397 * 2^-52` (the nearest double to 4/5), `0.5` is
exact, and `0.3` denotes the double `5404319552844595 * 2^-54`.  In the
expression `0.8 - 0.5` the float subtraction is exact by the Sterbenz lemma
(`0.5 ≤ 0.8 ≤ 2 * 0.5 * 2`), so the Python result is the rational
`fl08 - fl05 = 5404319552844596 * 2^-54`, one ulp above the double `0.3`;
the float sum `0.8 + 0.5` exceeds 1 whichever way it rounds, so the clamped
left output is exactly `1.0` both in Python and in this rational model. -/

/-- Exact value of the IEEE-754 binary64 float written `0.8` in Python. -/
def fl08 : ℚ := 3602879701896397 / 4503599627370496

/-- Exact value of the IEEE-754 binary64 float written `0.5` in Python (exact). -/
def fl05 : ℚ := 1 / 2

/-- Exact value of the IEEE-754 binary64 float written `0.3` in Python. -/
def fl03 : ℚ := 5404319552844595 / 18014398509481984

/-- Exact value of the IEEE-754 binary64 float written `0.30000000000000004`
in Python: the exact result of the float subtraction `0.8 - 0.5`, which the
own test of the repository, `test_differential_mix_clamps` asserts verbatim. -/
def fl03ulp : ℚ := 5404319552844596 / 18014398509481984

/-! ## Serial command bridge (`cheddar_serial/serial_bridge.py`)

The bridge owns an optional transport (`self._transport`), creates it lazily
on first use (`_ensure_transport`), and serializes exchanges under a lock.
Python exceptions (`ValueError`, `CommandError`, `TimeoutError`,
`RuntimeError`) are modelled by an error type returned in `Except`; object
mutation is modelled by returning the updated `SerialBridge` alongside the
result, so state left behind by a raising call is visible in the returned
bridge.  A transport is modelled behaviorally: `resp n` scripts what the
`n`-th `readline` call yields (`none` = nothing arrived before the timeout),
`written` records each line written, in order.  `SerialBridge.send_command`
only ever passes newline-free command strings, on which the rstrip-newline
framing done by `PySerialTransport.write_line`/`DummyTransport.write_line`
is the identity, so `write_line` records the command verbatim. -/

/-! Python string methods, as executable ASCII functions over the character
data.  The protocol strings this core handles are ASCII, on which these agree
with Python `str.strip` / `str.upper` / `str.lower` / `str.startswith` /
`str.isdigit` / `int(...)`.  (Core `String.trim` etc. are avoided because
their well-founded/extern implementations do not evaluate in proofs.) -/

/-- Python `s.strip()`: drop whitespace from both ends (ASCII). -/
def pyStrip (s : String) : String :=
  ⟨((s.data.dropWhile Char.isWhitespace).reverse.dropWhile Char.isWhitespace).reverse⟩

/-- Python `s.upper()` (ASCII). -/
def pyUpper (s : String) : String := ⟨s.data.map Char.toUpper⟩

/-- Python `s.lower()` (ASCII). -/
def pyLower (s : String) : String := ⟨s.data.map Char.toLower⟩

/-- Python `s.startswith(p)`. -/
def pyStartsWith (s p : String) : Bool := p.data.isPrefixOf s.data

/-- Python `s.isdigit()` on ASCII strings: nonempty, all decimal digits. -/
def pyIsdigit (s : String) : Bool := s.data.length != 0 && s.data.all Char.isDigit

/-- Python `int(...)` on a string of ASCII digits. -/
def digitsToNat (s : String) : ℕ := s.data.foldl (fun acc c => acc * 10 + (c.toNat - 48)) 0

/-- Error kinds raised by `serial_bridge.py`: `ValueError` (validation),
`CommandError` (device `ERR` response, carries the response text),
`TimeoutError` (no response line in time, message names the command), and
`RuntimeError` (unresolved port configuration). -/
inductive BridgeError where
  | valueError (msg : String)
  | commandError (msg : String)
  | timeoutError (command : String)
  | runtimeError (msg : String)
  deriving Repr, DecidableEq

/-- Behavioral model of a `SerialTransport` (real `PySerialTransport` or
`DummyTransport`): `resp n` is the line the `n`-th `readline` call returns
(`none` = timeout), `written` the lines written so far, `closed` whether the
underlying link was closed. -/
structure Transport where
  resp : ℕ → Option String
  written : List String := []
  reads : ℕ := 0
  closed : Bool := false

/-- `write_line`: appends the line to the wire (recorded in `written`). -/
def Transport.write_line (t : Transport) (line : String) : Transport :=
  { t with written := t.written ++ [line] }

/-- `readline(timeout)`: returns the scripted outcome of the next read and
advances the read counter.  The timeout value itself does not influence the
scripted outcome (a `none` entry *is* a lapsed timeout). -/
def Transport.readline (t : Transport) (timeout : ℚ) : Option String × Transport :=
  (t.resp t.reads, { t with reads := t.reads + 1 })

/-- The transport after one write of `command` followed by one read: the
state `send_command` leaves behind whenever it reaches the exchange. -/
def Transport.advance (t : Transport) (command : String) : Transport :=
  { t with written := t.written ++ [command], reads := t.reads + 1 }

/-- `SerialConfig` from `cheddar_serial/config.py` (environment defaults
inlined). -/
structure SerialConfig where
  port : String := "auto"
  baudrate : ℕ := 115200
  timeout : ℚ := 1
  dry_run : Bool := false
  log_traffic : Bool := true

/-- `SerialConfig.effective_port`: the sentinel rule resolving `""`, `"auto"`,
`"detect"` (case-insensitive, after stripping) to "unresolved" (`none`). -/
def SerialConfig.effective_port (c : SerialConfig) : Option String :=
  let port := pyStrip c.port
  if pyLower port = "" ∨ pyLower port = "auto" ∨ pyLower port = "detect" then none
  else some port

/-- `DummyTransport()`: always answers with the canned response `"OK"`. -/
def DummyTransport : Transport :=
  { resp := fun _ => some "OK" }

/-- `SerialBridge`: configuration plus the lazily created transport
(`self._transport`, `None` until first use or after `close()`). -/
structure SerialBridge where
  config : SerialConfig
  transport : Option Transport := none

namespace SerialBridge

/-- `_ensure_transport`: returns the existing transport, or creates one —
`DummyTransport` in dry-run mode, otherwise the real serial transport on the
resolved port (`fresh` stands for the transport that opening the port yields;
its response behavior is environment-determined), failing with `RuntimeError`
when the port sentinel is unresolved. -/
def _ensure_transport (fresh : Transport) (b : SerialBridge) :
    Except BridgeError (Transport × SerialBridge) :=
  match b.transport with
  | some t => .ok (t, b)
  | none =>
    if b.config.dry_run then
      .ok (DummyTransport, { b with transport := some DummyTransport })
    else
      match b.config.effective_port with
      | none => .error (.runtimeError "Serial port not specified. Set MOTIONDRIVER_SERIAL_PORT.")
      | some _ => .ok (fresh, { b with transport := some fresh })

/-- `close()`: closes and drops the transport if one is set, else does
nothing.  The second component counts how many transport `close()` operations
were performed.  The function is total: it never raises. -/
def close (b : SerialBridge) : SerialBridge × ℕ :=
  match b.transport with
  | none => (b, 0)
  | some _ => ({ b with transport := none }, 1)

/-- `send_command(command, expect_response, timeout)`: lazily opens the
transport, writes the command line, and — when a response is expected —
blocks for one line within the timeout, raising `TimeoutError` when none
arrives, trimming the line otherwise and raising `CommandError` carrying the
trimmed text when it starts with `ERR` case-insensitively, else returning the
trimmed line. -/
def send_command (fresh : Transport) (b : SerialBridge) (command : String)
    (expect_response : Bool) (timeout? : Option ℚ) :
    Except BridgeError (Option String) × SerialBridge :=
  let timeout := timeout?.getD b.config.timeout
  match _ensure_transport fresh b with
  | .error e => (.error e, b)
  | .ok (t, b1) =>
    let t1 := t.write_line command
    if expect_response = false then (.ok none, { b1 with transport := some t1 })
    else
      match t1.readline timeout with
      | (none, t2) => (.error (.timeoutError command), { b1 with transport := some t2 })
      | (some response, t2) =>
        let response' := pyStrip response
        if pyStartsWith (pyUpper response') "ERR" then
          (.error (.commandError response'), { b1 with transport := some t2 })
        else
          (.ok (some response'), { b1 with transport := some t2 })

/-- `_expect_ok`: empty result maps to `""`; a response other than `"OK"`
(case-insensitive) raises `CommandError` carrying it. -/
def _expect_ok (response : Option String) : Except BridgeError String :=
  match response with
  | none => .ok ""
  | some r => if pyUpper r ≠ "OK" then .error (.commandError r) else .ok r

/-- `self._expect_ok(self.send_command(command))`, the shape shared by all
OK-asserting helpers. -/
def sendExpectOk (fresh : Transport) (b : SerialBridge) (command : String) :
    Except BridgeError String × SerialBridge :=
  match send_command fresh b command true none with
  | (.error e, b1) => (.error e, b1)
  | (.ok r, b1) => (_expect_ok r, b1)

/-- `_validate_channel`: servo channel must lie in `0..15`. -/
def _validate_channel (channel : ℤ) : Except BridgeError Unit :=
  if channel < 0 ∨ channel > 15 then
    .error (.valueError "channel must be between 0 and 15 (inclusive)")
  else .ok ()

end SerialBridge

/-- Rounding to the nearest integer, ties to even — the tie rule of Python
float formatting. -/
def roundHalfEven (x : ℚ) : ℤ :=
  let f := ⌊x⌋
  if x - f < 1/2 then f
  else if 1/2 < x - f then f + 1
  else if f % 2 = 0 then f else f + 1

/-- Python `f"{q:.2f}"` for the nonnegative values it is applied to (speeds
in `[0, 1]`): the value rounded to hundredths, printed with exactly two
digits after the decimal point. -/
def fmt2 (q : ℚ) : String :=
  let n := (roundHalfEven (q * 100)).toNat
  toString (n / 100) ++ "." ++ String.mk [Nat.digitChar (n / 10 % 10), Nat.digitChar (n % 10)]

namespace SerialBridge

/-- `_normalize_target`: strip, uppercase; `ALL`/`[ALL]` map to `ALL`; a
digit string with value at most 5 maps to its canonical decimal form; all
else raises `ValueError`. -/
def _normalize_target (target : String) : Except BridgeError String :=
  let t := pyUpper (pyStrip target)
  if t = "ALL" ∨ t = "[ALL]" then .ok "ALL"
  else if pyIsdigit t = false then
    .error (.valueError "target must be an integer string 0-5 or ALL")
  else
    let index := digitsToNat t
    if index ≤ 5 then .ok (toString index)
    else .error (.valueError "motor index must be between 0 and 5")

/-- `_normalize_direction`: strip, uppercase; must be `FORWARD`/`BACKWARD`. -/
def _normalize_direction (direction : String) : Except BridgeError String :=
  let upper := pyUpper (pyStrip direction)
  if upper = "FORWARD" ∨ upper = "BACKWARD" then .ok upper
  else .error (.valueError "direction must be FORWARD or BACKWARD")

/-- `set_servo(channel, pulse_us)`: validate channel then pulse, then send
`S <channel> <pulse_us>` and assert the `OK` response. -/
def set_servo (fresh : Transport) (b : SerialBridge) (channel pulse_us : ℤ) :
    Except BridgeError String × SerialBridge :=
  match _validate_channel channel with
  | .error e => (.error e, b)
  | .ok _ =>
    if pulse_us ≤ 0 then (.error (.valueError "pulse_us must be positive"), b)
    else sendExpectOk fresh b ("S " ++ toString channel ++ " " ++ toString pulse_us)

/-- `motor_run(target, direction, speed)`: normalize target and direction,
validate an explicit speed into `[0, 1]`, then send
`MOTOR <target> <direction>[ <speed:.2f>]` and assert the `OK` response. -/
def motor_run (fresh : Transport) (b : SerialBridge) (target direction : String)
    (speed : Option ℚ) : Except BridgeError String × SerialBridge :=
  match _normalize_target target with
  | .error e => (.error e, b)
  | .ok tgt =>
    match _normalize_direction direction with
    | .error e => (.error e, b)
    | .ok dir_upper =>
      match speed with
      | none => sendExpectOk fresh b ("MOTOR " ++ tgt ++ " " ++ dir_upper)
      | some s =>
        if ¬ (0 ≤ s ∧ s ≤ 1) then
          (.error (.valueError "speed must be between 0.0 and 1.0"), b)
        else
          sendExpectOk fresh b ("MOTOR " ++ tgt ++ " " ++ dir_upper ++ " " ++ fmt2 s)

/-- The lines written so far over the bridge transport. -/
def writtenOf (b : SerialBridge) : List String :=
  match b.transport with
  | none => []
  | some t => t.written

end SerialBridge

/-! ## Witness fixtures

Concrete transports and bridges, in the injected-test-double style of
`webapp/tests/test_serial_bridge.py`. -/

/-- A transport scripted to never deliver a response line (every read times
out). -/
def silentTransport : Transport := { resp := fun _ => none }

/-- A transport scripted to answer every read with a device error line
surrounded by whitespace. -/
def errTransport : Transport := { resp := fun _ => some " ERR Servo channel " }

/-- A configuration with a concrete resolved port. -/
def cfgCom : SerialConfig := { port := "/dev/ttyUSB0" }

/-- A bridge with an injected always-`OK` transport. -/
def bridgeOk : SerialBridge := { config := cfgCom, transport := some DummyTransport }

/-- A bridge with an injected always-timeout transport. -/
def bridgeSilent : SerialBridge := { config := cfgCom, transport := some silentTransport }

/-- A bridge with an injected error-answering transport. -/
def bridgeErr : SerialBridge := { config := cfgCom, transport := some errTransport }

/-- A bridge whose session was never opened. -/
def bridgeNew : SerialBridge := { config := cfgCom, transport := none }

/-! ## High-level control command router
(`PieBrain/ChedWeb/backend/motion_driver_bridge.py`)

`MotionDriverBridge.send_command(cmd)` maps a `ControlCommand` onto raw UART
lines via `send_raw`, which swallows write failures (setting
`self.connected = False`) and silently skips when not connected — so no
sub-command ever raises into the batch loop.  `send_raw` write failures are
an environment event, modelled by an oracle `failAt : ℕ → Bool` telling
whether the `n`-th `send_raw` call has its underlying write throw.  `read_line`
is never called by `send_command`, which the `reads` counter records.

`send_command` duck-types its input: it reads `cmd.motors` / `cmd.servos`
(per-index lists) in addition to the legacy fields declared on the pydantic
`ControlCommand` model in `models.py`; the structure below carries the full
set of fields the router consumes, absent fields being `none`. -/

namespace MotionDriverBridge

/-- The `ControlCommand` fields read by `MotionDriverBridge.send_command`:
a kind tag, optional per-motor signed speeds, optional per-servo pulse
widths, legacy two-motor fields, legacy pan/tilt fields, and the client
timestamp (unused by the router). -/
structure ControlCommand where
  type : String
  motors : Option (List ℚ) := none
  servos : Option (List ℤ) := none
  motor_left : Option ℚ := none
  motor_right : Option ℚ := none
  servo_pan : Option ℤ := none
  servo_tilt : Option ℤ := none
  timestamp : ℚ := 0

/-- Mutable state of a `MotionDriverBridge`: connection flag, writer
presence, the trace of `send_raw` invocations (`attempts`), the subset that
was actually transmitted (`sent`), and how many `read_line` calls happened
(`reads`). -/
structure MDState where
  connected : Bool
  hasWriter : Bool
  attempts : List String := []
  sent : List String := []
  reads : ℕ := 0

/-- `send_raw(command)`: warns and returns when no writer is set or not
connected; otherwise writes, and on a write exception (`failAt` says the
`n`-th call throws) logs the error and sets `connected = False` — it never
propagates an exception. -/
def send_raw (failAt : ℕ → Bool) (st : MDState) (command : String) : MDState :=
  let st1 := { st with attempts := st.attempts ++ [command] }
  if st.hasWriter = false ∨ st.connected = false then st1
  else if failAt st.attempts.length then { st1 with connected := false }
  else { st1 with sent := st1.sent ++ [command] }

/-- The single raw line the motor loop sends for motor index `i` at signed
speed `speed`: `MOTOR <i> STOP` at zero, else
`MOTOR <i> FORWARD|BACKWARD <|speed|>` with the magnitude rendered by
`pyRepr`, the Python default float formatting `f"{abs(speed)}"`. -/
def motorLine (pyRepr : ℚ → String) (i : ℕ) (speed : ℚ) : String :=
  if speed = 0 then "MOTOR " ++ toString i ++ " STOP\n"
  else "MOTOR " ++ toString i ++ " " ++ (if speed > 0 then "FORWARD" else "BACKWARD")
    ++ " " ++ pyRepr |speed| ++ "\n"

/-- The raw line the servo loop sends for servo index `i`: `S <i> <pulse>`. -/
def servoLine (i : ℕ) (pulse : ℤ) : String :=
  "S " ++ toString i ++ " " ++ toString pulse ++ "\n"

/-- `MotionDriverBridge.send_command(cmd)`: ignored when not connected;
`estop`/`stop` sends the single line `MOTOR ALL STOP`; otherwise the motor
array block runs first, then the servo array block, then the legacy
two-motor block, then legacy pan, then legacy tilt.  (The Python `if
cmd.motors:` treats `None` and `[]` alike, which `getD []` mirrors.) -/
def send_command (pyRepr : ℚ → String) (failAt : ℕ → Bool)
    (st : MDState) (cmd : ControlCommand) : MDState :=
  if st.connected = false then st
  else if cmd.type = "estop" ∨ cmd.type = "stop" then
    send_raw failAt st "MOTOR ALL STOP\n"
  else
    let st1 := ((cmd.motors.getD []).enum).foldl
      (fun s p => send_raw failAt s (motorLine pyRepr p.1 p.2)) st
    let st2 := ((cmd.servos.getD []).enum).foldl
      (fun s p => send_raw failAt s (servoLine p.1 p.2)) st1
    let st3 :=
      if cmd.motor_left.isSome ∨ cmd.motor_right.isSome then
        let left := cmd.motor_left.getD 0
        let right := cmd.motor_right.getD 0
        let sL := ([0, 1, 2] : List ℕ).foldl
          (fun s i => send_raw failAt s (motorLine pyRepr i left)) st2
        ([3, 4, 5] : List ℕ).foldl
          (fun s i => send_raw failAt s (motorLine pyRepr i right)) sL
      else st2
    let st4 := match cmd.servo_pan with
      | some p => send_raw failAt st3 ("S 0 " ++ toString p ++ "\n")
      | none => st3
    match cmd.servo_tilt with
    | some p => send_raw failAt st4 ("S 1 " ++ toString p ++ "\n")
    | none => st4

/-- The motor-array lines of one router invocation, in index order. -/
def motorLines (pyRepr : ℚ → String) (cmd : ControlCommand) : List String :=
  ((cmd.motors.getD []).enum).map (fun p => motorLine pyRepr p.1 p.2)

/-- The servo-array lines of one router invocation, in index order. -/
def servoLines (cmd : ControlCommand) : List String :=
  ((cmd.servos.getD []).enum).map (fun p => servoLine p.1 p.2)

/-- The legacy two-motor-field lines: indices `0,1,2` mirror `motor_left`,
then `3,4,5` mirror `motor_right`. -/
def legacyLines (pyRepr : ℚ → String) (cmd : ControlCommand) : List String :=
  if cmd.motor_left.isSome ∨ cmd.motor_right.isSome then
    (([0, 1, 2] : List ℕ).map (fun i => motorLine pyRepr i (cmd.motor_left.getD 0))) ++
    (([3, 4, 5] : List ℕ).map (fun i => motorLine pyRepr i (cmd.motor_right.getD 0)))
  else []

/-- The legacy pan line (servo channel 0), then the tilt line (channel 1). -/
def panTiltLines (cmd : ControlCommand) : List String :=
  (match cmd.servo_pan with
   | some p => ["S 0 " ++ toString p ++ "\n"]
   | none => []) ++
  (match cmd.servo_tilt with
   | some p => ["S 1 " ++ toString p ++ "\n"]
   | none => [])

/-- A sample batch command exercising every block, for the witnesses. -/
def sampleCmd : ControlCommand :=
  { type := "motor", motors := some [1/2, 0, 2], servos := some [1500],
    motor_left := some (1/2), motor_right := some 0, servo_pan := some 90,
    servo_tilt := none }

/-- A batch whose motor list is out of every validated range: seven motors
(index 6 exceeds the validated range `0..5`) and a magnitude above `1.0`. -/
def oversizedCmd : ControlCommand :=
  { type := "motor", motors := some [0, 0, 0, 0, 0, 0, 5/2] }

/-- A connected initial router state. -/
def mdReady : MDState := { connected := true, hasWriter := true }

/-- A placeholder for Python float repr in the witnesses (any rendering
function instantiates the `pyRepr` oracle). -/
def qRepr (q : ℚ) : String := toString q.num ++ "/" ++ toString q.den

end MotionDriverBridge

/-! ## Claim theorems -/

/-- Claim C3: `apply_deadzone` returns exactly `0` strictly inside the
deadzone; outside it returns `sign(v) * clamp((|v| - d) / (1 - d), 0, 1)`;
it is `0` at the deadzone boundary (continuity), reaches `sign(v) * 1` at
`|v| = 1`, and maps an already-zero value to zero. -/
theorem deadzone_contract (v d : ℚ) (hv1 : -1 ≤ v) (hv2 : v ≤ 1)
    (hd0 : 0 ≤ d) (hd1 : d < 1) :
    (|v| < d → apply_deadzone v d = 0) ∧
    (d ≤ |v| → apply_deadzone v d = qsign v * max 0 (min 1 ((|v| - d) / (1 - d)))) ∧
    (|v| = d → apply_deadzone v d = 0) ∧
    apply_deadzone 1 d = 1 ∧
    apply_deadzone (-1) d = -1 ∧
    apply_deadzone 0 d = 0 := by
  have hden : (0:ℚ) < 1 - d := by linarith
  have hdz : (1:ℚ) - d ≠ 0 := ne_of_gt hden
  refine ⟨?_, ?_, ?_, ?_, ?_, ?_⟩
  · intro h
    simp [apply_deadzone, h]
  · intro h
    rcases lt_trichotomy v 0 with hneg | hzero | hpos
    · have hnp : ¬ v > 0 := by linarith
      simp only [apply_deadzone, if_neg (not_lt.2 h), hnp, if_false, qsign,
        if_neg (by linarith : ¬ (0:ℚ) < v), if_pos hneg]
      ring
    · subst hzero
      have hd : d = 0 := le_antisymm (by simpa using h) hd0
      subst hd
      simp [apply_deadzone, qsign]
    · simp only [apply_deadzone, if_neg (not_lt.2 h), hpos, if_pos, qsign,
        if_pos (show (0:ℚ) < v from hpos)]
      ring
  · intro h
    simp [apply_deadzone, h, lt_irrefl]
  · have h1 : ¬ |(1:ℚ)| < d := by rw [abs_one]; exact not_lt.2 hd1.le
    simp only [apply_deadzone, h1, if_false, abs_one]
    rw [div_self hdz]
    norm_num
    linarith
  · have h1 : ¬ |(-1:ℚ)| < d := by rw [abs_neg, abs_one]; exact not_lt.2 hd1.le
    simp only [apply_deadzone, h1, if_false, abs_neg, abs_one]
    rw [div_self hdz]
    norm_num
    linarith
  · rcases hd0.eq_or_lt with hz | hpos
    · subst hz
      simp [apply_deadzone]
    · simp [apply_deadzone, abs_of_nonneg, hpos]

/-- Concrete instantiation of `deadzone_contract` at `v = -9/10`, `d = 1/10`. -/
theorem deadzone_contract_witness :
    (-1 ≤ (-9/10 : ℚ) ∧ (-9/10 : ℚ) ≤ 1 ∧ (0:ℚ) ≤ 1/10 ∧ (1/10 : ℚ) < 1) ∧
    apply_deadzone (-9/10) (1/10) =
      qsign (-9/10) * max 0 (min 1 ((|(-9/10 : ℚ)| - 1/10) / (1 - 1/10))) := by
  refine ⟨by norm_num, ?_⟩
  exact (deadzone_contract (-9/10) (1/10) (by norm_num) (by norm_num)
    (by norm_num) (by norm_num)).2.1 (by norm_num [abs_of_nonpos])

/-- Claim C4: `differential_mix` returns the pair
`(clamp(throttle + turn, -1, 1), clamp(throttle - turn, -1, 1))`, each side
clamped independently, and both outputs always lie in `[-1, 1]`. -/
theorem differential_mix_contract (t u : ℚ) :
    differential_mix t u = (max (-1) (min 1 (t + u)), max (-1) (min 1 (t - u))) ∧
    -1 ≤ (differential_mix t u).1 ∧ (differential_mix t u).1 ≤ 1 ∧
    -1 ≤ (differential_mix t u).2 ∧ (differential_mix t u).2 ≤ 1 := by
  refine ⟨rfl, le_max_left _ _, ?_, le_max_left _ _, ?_⟩ <;>
    exact max_le (by norm_num) (min_le_left _ _)

/-- Claim C8 counterexample: `differential_mix(0.8, 0.5)` does not equal
`(1.0, 0.3)` — neither with `0.3` read as the Python double `0.3` (`fl03`)
nor as the exact rational `3/10` — because the float subtraction `0.8 - 0.5`
is exact and lands one ulp above the double `0.3`. -/
theorem differential_mix_08_05_ne_03 :
    differential_mix fl08 fl05 ≠ (1, fl03) ∧
    differential_mix fl08 fl05 ≠ (1, (3/10 : ℚ)) := by
  constructor <;>
    · simp only [differential_mix, fl08, fl05, fl03, Prod.mk.injEq, not_and]
      norm_num [min_def, max_def]

/-- Claim C8 (amended): `differential_mix(0.8, 0.5)` equals exactly
`(1.0, 0.30000000000000004)`: the left output saturates at the clamp bound
`1.0`, and the right output is the exact IEEE-754 binary64 result of
`0.8 - 0.5`, one ulp above the double `0.3` (as the repository test
`test_differential_mix_clamps` asserts). -/
theorem differential_mix_08_05_exact :
    differential_mix fl08 fl05 = (1, fl03ulp) ∧
    fl03ulp = fl08 - fl05 ∧ fl03 < fl03ulp ∧ (3/10 : ℚ) < fl03ulp := by
  refine ⟨?_, by norm_num [fl03ulp, fl08, fl05], by norm_num [fl03, fl03ulp],
    by norm_num [fl03ulp]⟩
  simp only [differential_mix, fl08, fl05, fl03ulp]
  norm_num [min_def, max_def]


open SerialBridge in
/-- Helper: given a transport, `send_command(command, expect_response=True)`
writes the command, consumes one read, and classifies the scripted outcome. -/
theorem send_command_state (fresh : Transport) (b : SerialBridge) (command : String)
    (tmo : Option ℚ) (t : Transport) (b1 : SerialBridge)
    (hE : _ensure_transport fresh b = .ok (t, b1)) :
    send_command fresh b command true tmo =
      ((match t.resp t.reads with
        | none => .error (.timeoutError command)
        | some response =>
          if pyStartsWith (pyUpper (pyStrip response)) "ERR" then
            .error (.commandError (pyStrip response))
          else .ok (some (pyStrip response))),
       { b1 with transport := some (t.advance command) }) := by
  simp only [SerialBridge.send_command, hE, Transport.write_line, Transport.readline,
    Transport.advance]
  cases h : t.resp t.reads <;> simp [h] <;> split <;> rfl

open SerialBridge in
/-- Helper: a `sendExpectOk` call leaves the same bridge state as the
underlying `send_command`, so the command line is on the wire whatever the
response was. -/
theorem sendExpectOk_written (fresh : Transport) (b : SerialBridge) (command : String)
    (t : Transport) (b1 : SerialBridge)
    (hE : _ensure_transport fresh b = .ok (t, b1)) :
    writtenOf (sendExpectOk fresh b command).2 = t.written ++ [command] := by
  have h := send_command_state fresh b command none t b1 hE
  rcases hsc : send_command fresh b command true none with ⟨r, b2⟩
  rw [hsc] at h
  have hb2 : b2 = { b1 with transport := some (t.advance command) } :=
    congrArg Prod.snd h
  cases r <;>
    simp [SerialBridge.sendExpectOk, hsc, SerialBridge.writtenOf, hb2, Transport.advance]

open SerialBridge in
/-- Claim C1: when `send_command(command, expect_response=True)` receives a
response line within the timeout, the line is trimmed of surrounding
whitespace; a trimmed response starting with `ERR` (case-insensitive) raises
`CommandError` carrying that trimmed response text, and any other response
is returned trimmed. -/
theorem send_command_response_contract (fresh : Transport) (b : SerialBridge)
    (command : String) (tmo : Option ℚ) (t : Transport) (b1 : SerialBridge)
    (raw : String)
    (hE : _ensure_transport fresh b = .ok (t, b1))
    (hR : t.resp t.reads = some raw) :
    (send_command fresh b command true tmo).1 =
      (if pyStartsWith (pyUpper (pyStrip raw)) "ERR" then
        .error (.commandError (pyStrip raw))
       else .ok (some (pyStrip raw))) := by
  rw [send_command_state fresh b command tmo t b1 hE]
  simp [hR]

open SerialBridge in
/-- Concrete run of `send_command_response_contract`: the canned response
`" ERR Servo channel "` is trimmed and raises `CommandError` carrying
exactly `"ERR Servo channel"`. -/
theorem send_command_response_contract_witness :
    (_ensure_transport DummyTransport bridgeErr = .ok (errTransport, bridgeErr) ∧
     errTransport.resp errTransport.reads = some " ERR Servo channel ") ∧
    (send_command DummyTransport bridgeErr "S 0 1500" true none).1 =
      .error (.commandError "ERR Servo channel") := by
  refine ⟨⟨rfl, rfl⟩, ?_⟩
  rw [send_command_response_contract DummyTransport bridgeErr "S 0 1500" none
    errTransport bridgeErr " ERR Servo channel " rfl rfl]
  rfl

open SerialBridge in
/-- Claim C6: when no response line arrives within the timeout,
`send_command` fails with a `TimeoutError` (a classified error value, not a
crash) and the transport of the session remains set and open — any later command
finds and reuses the very same transport through `_ensure_transport`,
without opening a new one. -/
theorem send_command_timeout_contract (fresh : Transport) (b : SerialBridge)
    (command : String) (tmo : Option ℚ) (t : Transport) (b1 : SerialBridge)
    (hE : _ensure_transport fresh b = .ok (t, b1))
    (hR : t.resp t.reads = none) (hcl : t.closed = false) :
    (send_command fresh b command true tmo).1 = .error (.timeoutError command) ∧
    (∃ t2, (send_command fresh b command true tmo).2.transport = some t2 ∧
      t2.closed = false ∧
      (∀ fresh2, _ensure_transport fresh2 (send_command fresh b command true tmo).2 =
        .ok (t2, (send_command fresh b command true tmo).2))) := by
  rw [send_command_state fresh b command tmo t b1 hE]
  refine ⟨by simp [hR], ?_⟩
  exact ⟨t.advance command, rfl, hcl, fun fresh2 => rfl⟩

open SerialBridge in
/-- Concrete run of `send_command_timeout_contract` on an always-silent
transport. -/
theorem send_command_timeout_contract_witness :
    (_ensure_transport DummyTransport bridgeSilent = .ok (silentTransport, bridgeSilent) ∧
     silentTransport.resp silentTransport.reads = none ∧
     silentTransport.closed = false) ∧
    ((send_command DummyTransport bridgeSilent "PING" true none).1 =
        .error (.timeoutError "PING") ∧
     (∃ t2, (send_command DummyTransport bridgeSilent "PING" true none).2.transport = some t2 ∧
       t2.closed = false ∧
       (∀ fresh2,
         _ensure_transport fresh2 (send_command DummyTransport bridgeSilent "PING" true none).2 =
           .ok (t2, (send_command DummyTransport bridgeSilent "PING" true none).2)))) :=
  ⟨⟨rfl, rfl, rfl⟩,
    send_command_timeout_contract DummyTransport bridgeSilent "PING" none
      silentTransport bridgeSilent rfl rfl rfl⟩

open SerialBridge in
/-- Claim C9: `close()` is idempotent and total — after any `close()` the
transport reference is cleared (so a later command re-establishes the
session), a second `close()` performs no transport operation, and `close()`
on a never-opened session performs no transport operation and changes
nothing.  `close` returning a value (rather than an `Except`) models that it
raises nothing. -/
theorem close_idempotent (b : SerialBridge) :
    ((close b).1).transport = none ∧
    close (close b).1 = ((close b).1, 0) ∧
    (b.transport = none → close b = (b, 0)) := by
  rcases b with ⟨cfg, tr⟩
  cases tr <;> simp [SerialBridge.close]

open SerialBridge in
/-- Concrete run of `close_idempotent` on a never-opened session. -/
theorem close_idempotent_witness :
    bridgeNew.transport = none ∧
    close bridgeNew = (bridgeNew, 0) ∧
    close (close bridgeNew).1 = ((close bridgeNew).1, 0) := by
  exact ⟨rfl, (close_idempotent bridgeNew).2.2 rfl, (close_idempotent bridgeNew).2.1⟩

open SerialBridge in
/-- Helper: a successfully normalized motor target is `ALL` or a canonical
digit `0`–`5`. -/
theorem normalize_target_cases (target T : String)
    (hT : _normalize_target target = .ok T) :
    T = "ALL" ∨ T = "0" ∨ T = "1" ∨ T = "2" ∨ T = "3" ∨ T = "4" ∨ T = "5" := by
  simp only [SerialBridge._normalize_target] at hT
  split at hT
  · injection hT with h
    exact Or.inl h.symm
  · split at hT
    · exact absurd hT (by simp)
    · split at hT
      · next hle =>
        injection hT with h
        subst h
        revert hle
        generalize digitsToNat (pyUpper (pyStrip target)) = n
        intro hle
        interval_cases n <;> decide
      · exact absurd hT (by simp)

open SerialBridge in
/-- Helper: a successfully normalized direction is `FORWARD` or `BACKWARD`. -/
theorem normalize_direction_cases (direction D : String)
    (hD : _normalize_direction direction = .ok D) :
    D = "FORWARD" ∨ D = "BACKWARD" := by
  simp only [SerialBridge._normalize_direction] at hD
  split at hD
  · next hcond =>
    injection hD with h
    subst h
    exact hcond
  · exact absurd hD (by simp)

/-- Helper: `fmt2` always renders with a dot followed by exactly two decimal
digit characters. -/
theorem fmt2_two_digits (s : ℚ) :
    ∃ ip d1 d2, fmt2 s = ip ++ "." ++ String.mk [d1, d2] ∧
      d1.isDigit = true ∧ d2.isDigit = true := by
  have hdig : ∀ m : ℕ, m < 10 → (Nat.digitChar m).isDigit = true := by decide
  refine ⟨toString ((roundHalfEven (s * 100)).toNat / 100),
    Nat.digitChar ((roundHalfEven (s * 100)).toNat / 10 % 10),
    Nat.digitChar ((roundHalfEven (s * 100)).toNat % 10), rfl, ?_, ?_⟩ <;>
    exact hdig _ (Nat.mod_lt _ (by norm_num))

/-- Helper: the speed `0.5` renders as `0.50`. -/
theorem fmt2_half : fmt2 (1/2 : ℚ) = "0.50" := by
  have h2 : roundHalfEven ((1/2 : ℚ) * 100) = 50 := by
    have h1 : ((1:ℚ)/2) * 100 = 50 := by norm_num
    rw [h1]
    simp only [roundHalfEven]
    norm_num
  simp only [fmt2, h2]
  rfl

open SerialBridge in
/-- Claim C2: for valid inputs, `motor_run(target, direction, speed)` writes
exactly the line `MOTOR <T> <D>` — `T` the target normalized to `ALL` or a
digit `0`–`5`, `D` the direction normalized to uppercase
`FORWARD`/`BACKWARD` — followed, when a speed is given, by the speed
formatted with exactly two decimal digits, and by nothing when the speed is
`None`. -/
theorem motor_run_wire_format (fresh : Transport) (b : SerialBridge)
    (target direction : String) (s : ℚ) (T D : String)
    (t : Transport) (b1 : SerialBridge)
    (hT : _normalize_target target = .ok T)
    (hD : _normalize_direction direction = .ok D)
    (hs0 : 0 ≤ s) (hs1 : s ≤ 1)
    (hE : _ensure_transport fresh b = .ok (t, b1)) :
    writtenOf (motor_run fresh b target direction (some s)).2 =
      t.written ++ ["MOTOR " ++ T ++ " " ++ D ++ " " ++ fmt2 s] ∧
    writtenOf (motor_run fresh b target direction none).2 =
      t.written ++ ["MOTOR " ++ T ++ " " ++ D] ∧
    (T = "ALL" ∨ T = "0" ∨ T = "1" ∨ T = "2" ∨ T = "3" ∨ T = "4" ∨ T = "5") ∧
    (D = "FORWARD" ∨ D = "BACKWARD") ∧
    (∃ ip d1 d2, fmt2 s = ip ++ "." ++ String.mk [d1, d2] ∧
      d1.isDigit = true ∧ d2.isDigit = true) := by
  refine ⟨?_, ?_, normalize_target_cases target T hT,
    normalize_direction_cases direction D hD, fmt2_two_digits s⟩
  · simp only [SerialBridge.motor_run, hT, hD]
    rw [if_neg (not_not_intro ⟨hs0, hs1⟩)]
    exact sendExpectOk_written fresh b _ t b1 hE
  · simp only [SerialBridge.motor_run, hT, hD]
    exact sendExpectOk_written fresh b _ t b1 hE

open SerialBridge in
/-- Concrete run of `motor_run_wire_format`:
`motor_run("ALL", "forward", 0.5)` writes exactly `MOTOR ALL FORWARD 0.50`. -/
theorem motor_run_wire_format_witness :
    (_normalize_target "ALL" = .ok "ALL" ∧
     _normalize_direction "forward" = .ok "FORWARD" ∧
     (0:ℚ) ≤ 1/2 ∧ (1/2 : ℚ) ≤ 1 ∧
     _ensure_transport DummyTransport bridgeOk = .ok (DummyTransport, bridgeOk)) ∧
    writtenOf (motor_run DummyTransport bridgeOk "ALL" "forward" (some (1/2))).2 =
      ["MOTOR ALL FORWARD 0.50"] := by
  refine ⟨⟨rfl, rfl, by norm_num, by norm_num, rfl⟩, ?_⟩
  have h := (motor_run_wire_format DummyTransport bridgeOk "ALL" "forward" (1/2)
    "ALL" "FORWARD" DummyTransport bridgeOk rfl rfl (by norm_num) (by norm_num) rfl).1
  rw [h, fmt2_half]
  rfl

open SerialBridge in
/-- Claim C5: `set_servo(channel, pulse_us)` raises `ValueError` when the
channel is outside `0..15` or the pulse is not positive, in both cases
returning the bridge unchanged — no line is written and no transport I/O
happens; for valid inputs it sends exactly the line `S <channel> <pulse_us>`. -/
theorem set_servo_contract (fresh : Transport) (b : SerialBridge)
    (channel pulse_us : ℤ) :
    ((channel < 0 ∨ 15 < channel) →
      set_servo fresh b channel pulse_us =
        (.error (.valueError "channel must be between 0 and 15 (inclusive)"), b)) ∧
    (0 ≤ channel → channel ≤ 15 → pulse_us ≤ 0 →
      set_servo fresh b channel pulse_us =
        (.error (.valueError "pulse_us must be positive"), b)) ∧
    (0 ≤ channel → channel ≤ 15 → 0 < pulse_us →
      ∀ t b1, _ensure_transport fresh b = .ok (t, b1) →
        writtenOf (set_servo fresh b channel pulse_us).2 =
          t.written ++ ["S " ++ toString channel ++ " " ++ toString pulse_us]) := by
  refine ⟨?_, ?_, ?_⟩
  · intro h
    rcases h with h | h <;>
      simp [SerialBridge.set_servo, SerialBridge._validate_channel, h]
  · intro h0 h15 hp
    have hc : ¬ (channel < 0 ∨ channel > 15) := by
      push_neg
      exact ⟨h0, h15⟩
    simp [SerialBridge.set_servo, SerialBridge._validate_channel, hc, hp]
  · intro h0 h15 hp t b1 hE
    have hc : ¬ (channel < 0 ∨ channel > 15) := by
      push_neg
      exact ⟨h0, h15⟩
    have hpn : ¬ pulse_us ≤ 0 := not_le.2 hp
    simp only [SerialBridge.set_servo, SerialBridge._validate_channel,
      if_neg hc, if_neg hpn]
    exact sendExpectOk_written fresh b _ t b1 hE

open SerialBridge in
/-- Concrete runs of `set_servo_contract`: channel `16` is rejected with the
bridge untouched, and `set_servo(2, 1500)` writes exactly `S 2 1500`. -/
theorem set_servo_contract_witness :
    ((16:ℤ) < 0 ∨ (15:ℤ) < 16) ∧
    set_servo DummyTransport bridgeOk 16 1500 =
      (.error (.valueError "channel must be between 0 and 15 (inclusive)"), bridgeOk) ∧
    ((0:ℤ) ≤ 2 ∧ (2:ℤ) ≤ 15 ∧ (0:ℤ) < 1500 ∧
      _ensure_transport DummyTransport bridgeOk = .ok (DummyTransport, bridgeOk)) ∧
    writtenOf (set_servo DummyTransport bridgeOk 2 1500).2 = ["S 2 1500"] := by
  refine ⟨Or.inr (by norm_num),
    (set_servo_contract DummyTransport bridgeOk 16 1500).1 (Or.inr (by norm_num)),
    ⟨by norm_num, by norm_num, by norm_num, rfl⟩, ?_⟩
  have h := (set_servo_contract DummyTransport bridgeOk 2 1500).2.2
    (by norm_num) (by norm_num) (by norm_num) DummyTransport bridgeOk rfl
  rw [h]
  rfl

open MotionDriverBridge in
/-- Helper: every `send_raw` call records its command in the attempt trace,
whether it transmits, fails, or is skipped. -/
theorem send_raw_attempts (failAt : ℕ → Bool) (st : MDState) (command : String) :
    (send_raw failAt st command).attempts = st.attempts ++ [command] := by
  unfold MotionDriverBridge.send_raw
  split
  · rfl
  · split <;> rfl

open MotionDriverBridge in
/-- Helper: `send_raw` never reads. -/
theorem send_raw_reads (failAt : ℕ → Bool) (st : MDState) (command : String) :
    (send_raw failAt st command).reads = st.reads := by
  unfold MotionDriverBridge.send_raw
  split
  · rfl
  · split <;> rfl

open MotionDriverBridge in
/-- Helper: a fold of `send_raw` calls appends one attempt per element, in
list order, regardless of which writes fail. -/
theorem foldl_send_raw_attempts {α : Type} (failAt : ℕ → Bool) (f : α → String)
    (l : List α) (st : MDState) :
    (l.foldl (fun s x => send_raw failAt s (f x)) st).attempts =
      st.attempts ++ l.map f := by
  induction l generalizing st with
  | nil => simp
  | cons x xs ih => simp [ih, send_raw_attempts, List.append_assoc]

open MotionDriverBridge in
/-- Helper: a fold of `send_raw` calls never reads. -/
theorem foldl_send_raw_reads {α : Type} (failAt : ℕ → Bool) (f : α → String)
    (l : List α) (st : MDState) :
    (l.foldl (fun s x => send_raw failAt s (f x)) st).reads = st.reads := by
  induction l generalizing st with
  | nil => rfl
  | cons x xs ih => simp [ih, send_raw_reads]

open MotionDriverBridge in
/-- Claim C7: one router `send_command` invocation on a non-stop
`ControlCommand` attempts its sub-commands in the fixed order — motor array,
then servo array, then legacy two-motor fields, then legacy pan/tilt — and
the attempt trace is complete for every write-failure pattern `failAt` and
writer state: a failing sub-command never aborts the ones after it. -/
theorem router_order_and_isolation (pyRepr : ℚ → String) (failAt : ℕ → Bool)
    (st : MDState) (cmd : ControlCommand)
    (hconn : st.connected = true)
    (hstop1 : cmd.type ≠ "estop") (hstop2 : cmd.type ≠ "stop") :
    (send_command pyRepr failAt st cmd).attempts =
      st.attempts ++ motorLines pyRepr cmd ++ servoLines cmd ++
        legacyLines pyRepr cmd ++ panTiltLines cmd := by
  simp only [MotionDriverBridge.send_command, hconn, hstop1, hstop2]
  rcases hp : cmd.servo_pan with _ | p <;> rcases ht : cmd.servo_tilt with _ | q <;>
    by_cases hleg : cmd.motor_left.isSome = true ∨ cmd.motor_right.isSome = true <;>
      simp [hp, ht, hleg, foldl_send_raw_attempts, send_raw_attempts,
        MotionDriverBridge.motorLines, MotionDriverBridge.servoLines,
        MotionDriverBridge.legacyLines, MotionDriverBridge.panTiltLines,
        List.append_assoc]

open MotionDriverBridge in
/-- Concrete run of `router_order_and_isolation`: a batch touching every
block, under a failure oracle that makes the very first write throw. -/
theorem router_order_and_isolation_witness :
    (mdReady.connected = true ∧ sampleCmd.type ≠ "estop" ∧ sampleCmd.type ≠ "stop") ∧
    (send_command qRepr (fun n => n == 0) mdReady sampleCmd).attempts =
      mdReady.attempts ++ motorLines qRepr sampleCmd ++ servoLines sampleCmd ++
        legacyLines qRepr sampleCmd ++ panTiltLines sampleCmd :=
  ⟨⟨rfl, by decide, by decide⟩,
    router_order_and_isolation qRepr (fun n => n == 0) mdReady sampleCmd
      rfl (by decide) (by decide)⟩

open MotionDriverBridge in
/-- Claim C10: with a motor array present and all other fields absent, the
router writes — for each position `i` — exactly one raw line, `MOTOR <i>
STOP` at zero speed, else `MOTOR <i> FORWARD|BACKWARD <|speed|>` with the
magnitude rendered by Python default float formatting (`pyRepr`), not the
two-decimal format of the validated encoder; this holds for every list `l` — any length
(indices beyond `5` included) and any magnitudes (above `1.0` included), so
no validated-encoder check runs — and no response is read. -/
theorem router_motor_array_passthrough (pyRepr : ℚ → String) (failAt : ℕ → Bool)
    (st : MDState) (cmd : ControlCommand) (l : List ℚ)
    (hconn : st.connected = true)
    (hstop1 : cmd.type ≠ "estop") (hstop2 : cmd.type ≠ "stop")
    (hm : cmd.motors = some l) (hs : cmd.servos = none)
    (hleft : cmd.motor_left = none) (hright : cmd.motor_right = none)
    (hpan : cmd.servo_pan = none) (htilt : cmd.servo_tilt = none) :
    (send_command pyRepr failAt st cmd).attempts =
      st.attempts ++ l.enum.map (fun p =>
        if p.2 = 0 then "MOTOR " ++ toString p.1 ++ " STOP\n"
        else "MOTOR " ++ toString p.1 ++ " " ++
          (if p.2 > 0 then "FORWARD" else "BACKWARD") ++ " " ++ pyRepr |p.2| ++ "\n") ∧
    (send_command pyRepr failAt st cmd).reads = st.reads := by
  constructor <;>
    simp [MotionDriverBridge.send_command, hconn, hstop1, hstop2, hm, hs,
      hleft, hright, hpan, htilt, foldl_send_raw_attempts, foldl_send_raw_reads,
      MotionDriverBridge.motorLine]

open MotionDriverBridge in
/-- Concrete run of `router_motor_array_passthrough` on a batch with seven
motors and a magnitude of `2.5`: the unvalidated lines still go out and
nothing is read. -/
theorem router_motor_array_passthrough_witness :
    (mdReady.connected = true ∧ oversizedCmd.type ≠ "estop" ∧
     oversizedCmd.type ≠ "stop" ∧
     oversizedCmd.motors = some [0, 0, 0, 0, 0, 0, 5/2] ∧
     oversizedCmd.servos = none ∧ oversizedCmd.motor_left = none ∧
     oversizedCmd.motor_right = none ∧ oversizedCmd.servo_pan = none ∧
     oversizedCmd.servo_tilt = none) ∧
    ((send_command qRepr (fun _ => false) mdReady oversizedCmd).attempts =
      mdReady.attempts ++ ([0, 0, 0, 0, 0, 0, 5/2] : List ℚ).enum.map (fun p =>
        if p.2 = 0 then "MOTOR " ++ toString p.1 ++ " STOP\n"
        else "MOTOR " ++ toString p.1 ++ " " ++
          (if p.2 > 0 then "FORWARD" else "BACKWARD") ++ " " ++ qRepr |p.2| ++ "\n") ∧
     (send_command qRepr (fun _ => false) mdReady oversizedCmd).reads = mdReady.reads) :=
  ⟨⟨rfl, by decide, by decide, rfl, rfl, rfl, rfl, rfl, rfl⟩,
    router_motor_array_passthrough qRepr (fun _ => false) mdReady oversizedCmd
      [0, 0, 0, 0, 0, 0, 5/2] rfl (by decide) (by decide) rfl rfl rfl rfl rfl rfl⟩
